import Mathlib

/-!
Verification of the connection-string resolver of cyrinux/flask-redis
(src/flask_redis/client.py), as a shallow embedding in Lean 4.

Python strings are modelled as Lean `String`/`List Char`; the fallible
parsers (which raise `ValueError` in Python) return `Except String`;
Python `None`-able values are `Option`; the keyword-argument dictionaries
`ssl_params` and `auth_params` are structures of `Option` fields where
`none` means "key absent from the dict"; Python `float` values are
modelled exactly as rationals in lowest terms (`PyRat`), so a parsed
`socket_timeout` is the exact decimal value rather than the nearest IEEE
double.

The pieces of the Python standard library the code relies on
(`urllib.parse.urlparse`, `urllib.parse.parse_qs`, `int()`, `float()`)
are embedded from CPython's documented behaviour, restricted to ASCII
input: percent-decoding decodes each `%XX` to the character of that code
point (multi-byte UTF-8 sequences are not recombined), `int()`/`float()`
accept sign, ASCII digits, single underscores between digits and
surrounding ASCII whitespace (unicode digits and `inf`/`nan` are not
modelled), and `urlsplit`'s control-character stripping and IPv6 bracket
validation are omitted.  None of the claims exercise those corners.
-/

/-- Split a character list at the first character satisfying `p`:
returns the part before the match and the part after it, or `none`
when no character matches.  Models Python `s.split(c, 1)` /
`s.partition(c)` and `s.find(c)`. -/
def splitCharFirstP (p : Char → Bool) : List Char → Option (List Char × List Char)
  | [] => none
  | c :: rest =>
    if p c then some ([], rest)
    else (splitCharFirstP p rest).map (fun pr => (c :: pr.1, pr.2))

/-- Split a character list at the last occurrence of `c`.  Models Python
`s.rpartition(c)`. -/
def splitCharLast (c : Char) (l : List Char) : Option (List Char × List Char) :=
  (splitCharFirstP (fun x => x == c) l.reverse).map
    (fun pr => (pr.2.reverse, pr.1.reverse))

/-- Split a character list on every occurrence of `sep`.  Models Python
`s.split(sep)` for a one-character separator: the empty string splits to
`[""]`, and adjacent separators yield empty pieces. -/
def splitChar (sep : Char) : List Char → List (List Char)
  | [] => [[]]
  | x :: xs =>
    let r := splitChar sep xs
    if x == sep then [] :: r
    else
      match r with
      | h :: t => (x :: h) :: t
      | [] => [[x]]

/-- Lowercase a string character-wise (ASCII), modelling `str.lower()`
on the ASCII strings the resolver handles. -/
def lowerStr (s : String) : String :=
  String.mk (s.toList.map Char.toLower)

/-- Strip ASCII whitespace from both ends, modelling the whitespace
stripping Python's `int()` and `float()` perform on their argument. -/
def pyStrip (s : String) : List Char :=
  ((s.toList.dropWhile Char.isWhitespace).reverse.dropWhile Char.isWhitespace).reverse

/-- Value of a hexadecimal digit, or `none`. -/
def hexVal? (c : Char) : Option Nat :=
  if '0' ≤ c ∧ c ≤ '9' then some (c.toNat - '0'.toNat)
  else if 'a' ≤ c ∧ c ≤ 'f' then some (c.toNat - 'a'.toNat + 10)
  else if 'A' ≤ c ∧ c ≤ 'F' then some (c.toNat - 'A'.toNat + 10)
  else none

/-- Decode one segment following a `%` sign, as `urllib.parse.unquote`
treats each piece of its split on `%`: a leading pair of hex digits
becomes the character with that code, anything else keeps its `%`. -/
def decodeSegment (seg : List Char) : List Char :=
  match seg with
  | a :: b :: rest =>
    match hexVal? a, hexVal? b with
    | some x, some y => Char.ofNat (16 * x + y) :: rest
    | _, _ => '%' :: seg
  | _ => '%' :: seg

/-- Percent-decoding, modelling `urllib.parse.unquote` on ASCII data:
the input is split on `%` and each following segment is decoded by
`decodeSegment`, leaving invalid escapes untouched. -/
def percentDecode (l : List Char) : List Char :=
  match splitChar '%' l with
  | [] => []
  | first :: segs => first ++ (segs.map decodeSegment).flatten

/-- Query-string unquoting as done by `parse_qsl`: `+` becomes a space,
then percent-escapes are decoded. -/
def unquotePlus (s : String) : String :=
  String.mk (percentDecode (s.toList.map (fun c => if c == '+' then ' ' else c)))

/-- Parse a run of ASCII digits possibly separated by single underscores,
continuing an accumulated value.  A leading, trailing or doubled
underscore is rejected, as in Python's number grammar. -/
def parseDigitsUAux (acc : Nat) : List Char → Option Nat
  | [] => some acc
  | '_' :: c :: rest =>
    if c.isDigit then parseDigitsUAux (acc * 10 + (c.toNat - '0'.toNat)) rest else none
  | c :: rest =>
    if c.isDigit then parseDigitsUAux (acc * 10 + (c.toNat - '0'.toNat)) rest else none

/-- Parse a non-empty run of ASCII digits with optional single
underscores between digits, as accepted inside Python's `int()` and
`float()` literals. -/
def parseDigitsU : List Char → Option Nat
  | [] => none
  | c :: rest =>
    if c.isDigit then parseDigitsUAux (c.toNat - '0'.toNat) rest else none

/-- Embedding of Python's `int(s)` for base 10: optional surrounding
whitespace, optional sign, digits with underscore separators.  Returns
`none` where Python raises `ValueError`. -/
def pyInt (s : String) : Option Int :=
  match pyStrip s with
  | '+' :: rest => (parseDigitsU rest).map Int.ofNat
  | '-' :: rest => (parseDigitsU rest).map (fun n => -(n : Int))
  | cs => (parseDigitsU cs).map Int.ofNat

/-- Ten to a natural power, kept as a plain recursive definition so
that concrete evaluations reduce. -/
def pow10 : Nat → Nat
  | 0 => 1
  | n + 1 => 10 * pow10 n

/-- An exact rational value, used to model the exact decimal value a
Python `float()` call parses (the subsequent rounding to the nearest
IEEE double is not modelled).  Values built by `mkPyRat` are in lowest
terms, so structural equality is value equality. -/
structure PyRat where
  num : Int
  den : Nat
deriving DecidableEq, Repr

/-- Build a `PyRat` in lowest terms from a sign, a numerator and a
(positive) denominator. -/
def mkPyRat (neg : Bool) (n d : Nat) : PyRat :=
  let g := Nat.gcd n d
  if g = 0 then { num := 0, den := 0 }
  else
    { num := if neg then -(Int.ofNat (n / g)) else Int.ofNat (n / g)
      den := d / g }

/-- The mantissa part of a Python float literal — `digits`,
`digits.digits`, `digits.` or `.digits`, with underscores allowed inside
each digit run — as a numerator and the number of fractional digits. -/
def mantissaND (cs : List Char) : Option (Nat × Nat) :=
  match splitCharFirstP (fun c => c == '.') cs with
  | none => (parseDigitsU cs).map (fun n => (n, 0))
  | some (ip, fp) =>
    match ip, fp with
    | [], [] => none
    | [], _ => (parseDigitsU fp).map (fun f => (f, (fp.filter Char.isDigit).length))
    | _, [] => (parseDigitsU ip).map (fun n => (n, 0))
    | _, _ =>
      match parseDigitsU ip, parseDigitsU fp with
      | some i, some f =>
        some (i * pow10 (fp.filter Char.isDigit).length + f,
              (fp.filter Char.isDigit).length)
      | _, _ => none

/-- Embedding of Python's `float(s)` for finite decimal literals:
optional whitespace and sign, mantissa, optional `e`/`E` exponent.
The value is represented exactly.  Returns `none` where Python raises
`ValueError` (`inf`/`nan` spellings are not modelled). -/
def pyFloat (s : String) : Option PyRat :=
  let stripped := pyStrip s
  let sgn : Bool × List Char :=
    match stripped with
    | '+' :: rest => (false, rest)
    | '-' :: rest => (true, rest)
    | rest => (false, rest)
  let parts : List Char × Option (List Char) :=
    match splitCharFirstP (fun c => c == 'e' || c == 'E') sgn.2 with
    | some pr => (pr.1, some pr.2)
    | none => (sgn.2, none)
  match mantissaND parts.1 with
  | none => none
  | some nd =>
    match parts.2 with
    | none => some (mkPyRat sgn.1 nd.1 (pow10 nd.2))
    | some e =>
      let eparts : Bool × List Char :=
        match e with
        | '+' :: r => (false, r)
        | '-' :: r => (true, r)
        | r => (false, r)
      match parseDigitsU eparts.2 with
      | none => none
      | some ev =>
        if eparts.1 then some (mkPyRat sgn.1 nd.1 (pow10 nd.2 * pow10 ev))
        else some (mkPyRat sgn.1 (nd.1 * pow10 ev) (pow10 nd.2))

/-- Result of `urllib.parse.urlparse` restricted to the components the
resolver reads.  The scheme is already lowercased, as `urlsplit` does. -/
structure ParsedUrl where
  scheme : String
  netloc : String
  path : String
  query : String
  fragment : String
deriving DecidableEq, Repr

/-- Characters allowed in a URL scheme after the first (CPython's
`scheme_chars`). -/
def isSchemeChar (c : Char) : Bool :=
  c.isAlpha || c.isDigit || c == '+' || c == '-' || c == '.'

/-- Embedding of `urllib.parse.urlparse` (scheme, netloc, path, query,
fragment) following CPython's `urlsplit`: the scheme is split off at the
first `:` when the prefix is a well-formed scheme and lowercased; a
netloc follows `//` up to the first of `/`, `?`, `#`; the fragment is
split at the first `#`; the query at the first `?`.  The resolver's
schemes are not in `uses_params`, so `urlparse`'s `;`-params split never
applies. -/
def urlparse (url : String) : ParsedUrl :=
  let cs := url.toList
  let schemeRest : String × List Char :=
    match splitCharFirstP (fun c => c == ':') cs with
    | some (before, after) =>
      match before with
      | [] => ("", cs)
      | c0 :: _ =>
        if c0.isAlpha && before.all isSchemeChar
        then (lowerStr (String.mk before), after)
        else ("", cs)
    | none => ("", cs)
  let netlocRest : List Char × List Char :=
    match schemeRest.2 with
    | '/' :: '/' :: after =>
      let nl := after.takeWhile (fun c => !(c == '/' || c == '?' || c == '#'))
      (nl, after.drop nl.length)
    | rest => ([], rest)
  let pathqFrag : List Char × List Char :=
    match splitCharFirstP (fun c => c == '#') netlocRest.2 with
    | some (a, b) => (a, b)
    | none => (netlocRest.2, [])
  let pathQuery : List Char × List Char :=
    match splitCharFirstP (fun c => c == '?') pathqFrag.1 with
    | some (a, b) => (a, b)
    | none => (pathqFrag.1, [])
  { scheme := schemeRest.1
    netloc := String.mk netlocRest.1
    path := String.mk pathQuery.1
    query := String.mk pathQuery.2
    fragment := String.mk pathqFrag.2 }

/-- The `username` component of a parsed URL, as CPython computes it:
the part of the userinfo (before the last `@` of the netloc) up to the
first `:`; `none` when the netloc has no `@`. -/
def ParsedUrl.username (p : ParsedUrl) : Option String :=
  match splitCharLast '@' p.netloc.toList with
  | none => none
  | some (userinfo, _) =>
    match splitCharFirstP (fun c => c == ':') userinfo with
    | none => some (String.mk userinfo)
    | some (u, _) => some (String.mk u)

/-- The `password` component of a parsed URL, as CPython computes it:
the part of the userinfo after the first `:`; `none` when the netloc
has no `@` or the userinfo has no `:`. -/
def ParsedUrl.password (p : ParsedUrl) : Option String :=
  match splitCharLast '@' p.netloc.toList with
  | none => none
  | some (userinfo, _) =>
    match splitCharFirstP (fun c => c == ':') userinfo with
    | none => none
    | some (_, pw) => some (String.mk pw)

/-- Embedding of `urllib.parse.parse_qs` with its default arguments,
kept as the ordered list of (name, value) pairs: tokens are split on
`&`, empty tokens, tokens without `=` and tokens with an empty value are
skipped, and names and values are unquoted.  Python's dict-of-lists view
is recovered by `qsFirst`, which returns the first value for a key —
exactly what the resolver's `query_params.get(key, [d])[0]` reads. -/
def parse_qs (qs : String) : List (String × String) :=
  (splitChar '&' qs.toList).filterMap (fun nv =>
    match splitCharFirstP (fun c => c == '=') nv with
    | none => none
    | some (n, v) =>
      if v.isEmpty then none
      else some (unquotePlus (String.mk n), unquotePlus (String.mk v)))

/-- First value bound to `key` in a parsed query string, modelling
`parse_qs(...)[key][0]` when the key is present and `None` otherwise. -/
def qsFirst (qp : List (String × String)) (key : String) : Option String :=
  (qp.find? (fun kv => kv.1 == key)).map (fun kv => kv.2)

/-- The three-valued certificate-requirement enum, modelling the
`ssl.CERT_REQUIRED` / `ssl.CERT_OPTIONAL` / `ssl.CERT_NONE` constants
the resolver maps `ssl_cert_reqs` onto. -/
inductive CertReqs where
  | cert_required
  | cert_optional
  | cert_none
deriving DecidableEq, Repr

/-- The `ssl_params` keyword dictionary built by `_parse_ssl_params`.
Each `none` field means the key is absent from the dict; the default
instance `{}` is the empty dict. -/
structure SslParams where
  ssl : Option Bool := none
  ssl_cert_reqs : Option CertReqs := none
  ssl_keyfile : Option String := none
  ssl_certfile : Option String := none
  ssl_ca_certs : Option String := none
deriving DecidableEq, Repr

/-- The `auth_params` keyword dictionary built by `_parse_auth_params`;
`none` means the key is absent. -/
structure AuthParams where
  username : Option String := none
  password : Option String := none
deriving DecidableEq, Repr

/-- The `sentinel_kwargs` dictionary returned by
`_parse_sentinel_parameters`. -/
structure SentinelKwargs where
  hosts : List (String × Int)
  socket_timeout : Option PyRat
  ssl_params : SslParams
  auth_params : AuthParams
  master_name : String
deriving DecidableEq, Repr

/-- The `client_kwargs` dictionary returned by
`_parse_sentinel_parameters`. -/
structure ClientKwargs where
  db : Int
  socket_timeout : Option PyRat
  ssl_params : SslParams
  auth_params : AuthParams
deriving DecidableEq, Repr

/-- Truthiness of an optional string, as Python's `if x:` sees it:
false for `None` and for the empty string. -/
def truthyOpt : Option String → Bool
  | none => false
  | some s => !(s == "")

/-- Run an `Except`-valued function over a list, stopping at the first
error — the shape of the resolver's accumulating `for` loops, where an
exception raised for one element aborts the whole call. -/
def mapME {α β ε : Type} (f : α → Except ε β) : List α → Except ε (List β)
  | [] => Except.ok []
  | x :: xs =>
    match f x with
    | Except.error e => Except.error e
    | Except.ok y =>
      match mapME f xs with
      | Except.error e => Except.error e
      | Except.ok ys => Except.ok (y :: ys)

/-- Boolean success test for `Except`. -/
def isOkE {ε α : Type} : Except ε α → Bool
  | Except.ok _ => true
  | Except.error _ => false

/-- Embedding of `FlaskRedis._extract_credentials`: read `username` and
`password` off the parsed URL. -/
def _extract_credentials (p : ParsedUrl) : Option String × Option String :=
  (p.username, p.password)

/-- The `host[:port]` tokens `_parse_hosts` iterates over: the netloc
with everything up to the first `@` stripped, split on `,`. -/
def hostTokens (netloc : String) : List (List Char) :=
  let hosts_part : List Char :=
    match splitCharFirstP (fun c => c == '@') netloc.toList with
    | some pr => pr.2
    | none => netloc.toList
  splitChar ',' hosts_part

/-- Body of `_parse_hosts`'s loop: a token with a `:` is split at the
first `:` and its port parsed with `int()` (raising on failure); a token
without one gets the default Sentinel port 26379. -/
def parseHostToken (host_port : List Char) : Except String (String × Int) :=
  match splitCharFirstP (fun c => c == ':') host_port with
  | some pr =>
    match pyInt (String.mk pr.2) with
    | some n => Except.ok (String.mk pr.1, n)
    | none => Except.error "invalid literal for int() with base 10"
  | none => Except.ok (String.mk host_port, 26379)

/-- Embedding of `FlaskRedis._parse_hosts`. -/
def _parse_hosts (p : ParsedUrl) : Except String (List (String × Int)) :=
  mapME parseHostToken (hostTokens p.netloc)

/-- The URL path with all leading `/` characters stripped, as in
`parsed_url.path.lstrip("/")`. -/
def lstripSlashes (p : ParsedUrl) : List Char :=
  p.path.toList.dropWhile (fun c => c == '/')

/-- Embedding of `FlaskRedis._parse_master_and_db`: the slash-stripped
path is split at its first remaining `/`; the left part is the master
name and the right part must be an integer database index; with no `/`
the whole path is the master name and the database defaults to 0. -/
def _parse_master_and_db (p : ParsedUrl) : Except String (String × Int) :=
  match splitCharFirstP (fun c => c == '/') (lstripSlashes p) with
  | some pr =>
    match pyInt (String.mk pr.2) with
    | some db => Except.ok (String.mk pr.1, db)
    | none => Except.error "invalid literal for int() with base 10"
  | none => Except.ok (String.mk (lstripSlashes p), 0)

/-- Embedding of `FlaskRedis._parse_socket_timeout`: the first
`socket_timeout` query value parsed with `float()` (raising on failure);
absent means no timeout. -/
def _parse_socket_timeout (query_params : List (String × String)) :
    Except String (Option PyRat) :=
  match qsFirst query_params "socket_timeout" with
  | some s =>
    match pyFloat s with
    | some f => Except.ok (some f)
    | none => Except.error "could not convert string to float"
  | none => Except.ok none

/-- Embedding of `FlaskRedis._parse_ssl_enabled`: forced on for the
`rediss+sentinel` scheme, otherwise the first `ssl` query value
(defaulting to `"False"`) lowercased and compared with `"true"`. -/
def _parse_ssl_enabled (scheme : String) (query_params : List (String × String)) :
    Bool :=
  if scheme == "rediss+sentinel" then true
  else lowerStr ((qsFirst query_params "ssl").getD "False") == "true"

/-- Embedding of `FlaskRedis._parse_ssl_cert_reqs`: the first truthy
`ssl_cert_reqs` query value, lowercased, mapped through the three-valued
enum; unrecognized values and absence give `None`. -/
def _parse_ssl_cert_reqs (query_params : List (String × String)) : Option CertReqs :=
  match qsFirst query_params "ssl_cert_reqs" with
  | none => none
  | some s =>
    if s == "" then none
    else
      match lowerStr s with
      | "required" => some CertReqs.cert_required
      | "optional" => some CertReqs.cert_optional
      | "none" => some CertReqs.cert_none
      | _ => none

/-- Embedding of `FlaskRedis._parse_ssl_params`: the empty dict when
security is disabled; otherwise `ssl=True` plus the certificate fields,
each included only when present and truthy (`ssl_cert_reqs` only when it
mapped to an enum value). -/
def _parse_ssl_params (query_params : List (String × String)) (ssl_enabled : Bool) :
    SslParams :=
  if ssl_enabled then
    { ssl := some true
      ssl_cert_reqs := _parse_ssl_cert_reqs query_params
      ssl_keyfile :=
        if truthyOpt (qsFirst query_params "ssl_keyfile")
        then qsFirst query_params "ssl_keyfile" else none
      ssl_certfile :=
        if truthyOpt (qsFirst query_params "ssl_certfile")
        then qsFirst query_params "ssl_certfile" else none
      ssl_ca_certs :=
        if truthyOpt (qsFirst query_params "ssl_ca_certs")
        then qsFirst query_params "ssl_ca_certs" else none }
  else {}

/-- Embedding of `FlaskRedis._parse_auth_params`: each credential is
included only when truthy, so `None` and the empty string are both
omitted. -/
def _parse_auth_params (username password : Option String) : AuthParams :=
  { username := if truthyOpt username then username else none
    password := if truthyOpt password then password else none }

/-- Embedding of `FlaskRedis._parse_sentinel_parameters`: runs the
sub-parsers in the source's order, propagating the first `ValueError`,
and assembles `sentinel_kwargs` and `client_kwargs`. -/
def _parse_sentinel_parameters (p : ParsedUrl) :
    Except String (SentinelKwargs × ClientKwargs) :=
  match _parse_hosts p with
  | Except.error e => Except.error e
  | Except.ok hosts =>
    match _parse_master_and_db p with
    | Except.error e => Except.error e
    | Except.ok md =>
      let query_params := parse_qs p.query
      match _parse_socket_timeout query_params with
      | Except.error e => Except.error e
      | Except.ok socket_timeout =>
        let ssl_enabled := _parse_ssl_enabled p.scheme query_params
        let ssl_params := _parse_ssl_params query_params ssl_enabled
        let auth_params :=
          _parse_auth_params (_extract_credentials p).1 (_extract_credentials p).2
        Except.ok
          ({ hosts := hosts
             socket_timeout := socket_timeout
             ssl_params := ssl_params
             auth_params := auth_params
             master_name := md.1 },
           { db := md.2
             socket_timeout := socket_timeout
             ssl_params := ssl_params
             auth_params := auth_params })

/-- The client handle the factory builds: either a standard client built
by `provider_class.from_url` on the unchanged URL, or a Sentinel-mediated
client built from the parsed parameter sets.  The external provider's
network-touching constructors are modelled as these data constructors. -/
inductive RedisClient where
  | standard (endpoint_url : String) (decode_responses : Bool)
  | sentinel (sk : SentinelKwargs) (ck : ClientKwargs) (decode_responses : Bool)
deriving DecidableEq, Repr

/-- The mutable state `init_app` touches: the extension object's
`_redis_client` slot and the Flask app's `extensions` registry (whose
`none` models an app without the attribute). -/
structure AppState where
  redis_client : Option RedisClient
  extensions : Option (List (String × RedisClient))
deriving DecidableEq, Repr

/-- The exceptions `init_app` can raise: the explicit `ImportError` when
Sentinel support is missing, and the `ValueError` a numeric parse raises. -/
inductive InitError where
  | importError (msg : String)
  | valueError (msg : String)
deriving DecidableEq, Repr

/-- Python dict assignment `d[k] = v` on an association list: updates
the existing binding in place or appends a new one. -/
def dictSet {α : Type} : List (String × α) → String → α → List (String × α)
  | [], k, v => [(k, v)]
  | kv :: rest, k, v =>
    if kv.1 == k then (k, v) :: rest
    else kv :: dictSet rest k v

/-- The successful tail of `init_app`: store the freshly built client in
`_redis_client`, create the `extensions` dict when absent, and register
the extension under the lowercased config prefix. -/
def registerClient (c : RedisClient) (pfx : String) (st : AppState) :
    Option InitError × AppState :=
  (none,
   { redis_client := some c
     extensions := some (dictSet (st.extensions.getD []) (lowerStr pfx) c) })

/-- Embedding of `FlaskRedis.init_app`.  `sentinelAvailable` models
`Sentinel is not None` (whether `redis.sentinel` imported);
`pfx` is the instance's `config_prefix`; `redis_url` the configured URL.
An error result carries the unchanged state, matching an exception
raised before any assignment.  `provider_kwargs` is left at its empty
default. -/
def init_app (sentinelAvailable : Bool) (pfx : String) (decode_responses : Bool)
    (redis_url : String) (st : AppState) : Option InitError × AppState :=
  let parsed_url := urlparse redis_url
  if parsed_url.scheme = "redis+sentinel" ∨ parsed_url.scheme = "rediss+sentinel" then
    if sentinelAvailable then
      match _parse_sentinel_parameters parsed_url with
      | Except.error m => (some (InitError.valueError m), st)
      | Except.ok skck =>
        registerClient (RedisClient.sentinel skck.1 skck.2 decode_responses) pfx st
    else
      (some (InitError.importError "redis-py must be installed to use Redis Sentinel."), st)
  else
    registerClient (RedisClient.standard redis_url decode_responses) pfx st

instance instDecEqExcept {ε α : Type} [DecidableEq ε] [DecidableEq α] :
    DecidableEq (Except ε α) := fun x y =>
  match x, y with
  | Except.error u, Except.error v =>
    if h : u = v then Decidable.isTrue (by rw [h])
    else Decidable.isFalse (fun hh => h (by cases hh; rfl))
  | Except.error _, Except.ok _ => Decidable.isFalse (fun hh => Except.noConfusion hh)
  | Except.ok _, Except.error _ => Decidable.isFalse (fun hh => Except.noConfusion hh)
  | Except.ok u, Except.ok v =>
    if h : u = v then Decidable.isTrue (by rw [h])
    else Decidable.isFalse (fun hh => h (by cases hh; rfl))

/-- Splitting at the first character satisfying `p` finds nothing
exactly when no character of the list satisfies `p`. -/
theorem splitCharFirstP_eq_none_iff {p : Char → Bool} {l : List Char} :
    splitCharFirstP p l = none ↔ ∀ c ∈ l, p c = false := by
  induction l with
  | nil => simp [splitCharFirstP]
  | cons c rest ih =>
    by_cases hc : p c = true
    · simp [splitCharFirstP, hc]
    · simp only [Bool.not_eq_true] at hc
      simp [splitCharFirstP, hc, ih]

/-- A successful `mapME` run relates input and output elementwise and in
order. -/
theorem mapME_ok_forall2 {α β ε : Type} (f : α → Except ε β) :
    ∀ (l : List α) (ys : List β), mapME f l = Except.ok ys →
      List.Forall₂ (fun x y => f x = Except.ok y) l ys := by
  intro l
  induction l with
  | nil =>
    intro ys h
    simp only [mapME] at h
    injection h with h
    rw [← h]
    exact List.Forall₂.nil
  | cons x xs ih =>
    intro ys h
    cases hfx : f x with
    | error e => simp [mapME, hfx] at h
    | ok y =>
      simp only [mapME, hfx] at h
      cases hxs : mapME f xs with
      | error e => rw [hxs] at h; simp at h
      | ok ys2 =>
        rw [hxs] at h
        injection h with h
        rw [← h]
        exact List.Forall₂.cons hfx (ih ys2 hxs)

/-- If any element of the list fails, the whole `mapME` run fails —
the loop's exception propagates out. -/
theorem mapME_not_ok_of_mem {α β ε : Type} (f : α → Except ε β) {l : List α} {x : α}
    (hx : x ∈ l) (hf : isOkE (f x) = false) : isOkE (mapME f l) = false := by
  induction l with
  | nil => cases hx
  | cons a as ih =>
    rcases List.mem_cons.mp hx with h | h
    · rw [h] at hf
      cases hfa : f a with
      | error e => simp [mapME, hfa, isOkE]
      | ok y => rw [hfa] at hf; simp [isOkE] at hf
    · cases hfa : f a with
      | error e => simp [mapME, hfa, isOkE]
      | ok y =>
        have htail := ih h
        cases hmm : mapME f as with
        | error e => simp [mapME, hfa, hmm, isOkE]
        | ok ys => rw [hmm] at htail; simp [isOkE] at htail

/-- An unsuccessful `Except` value is an explicit error. -/
theorem exists_error_of_not_ok {ε α : Type} {x : Except ε α} (h : isOkE x = false) :
    ∃ m, x = Except.error m := by
  cases x with
  | error m => exact ⟨m, rfl⟩
  | ok a => simp [isOkE] at h

/-- Success of `_parse_sentinel_parameters` is exactly the success of
its three fallible sub-parsers; the remaining sub-parsers are total. -/
theorem sentinel_params_isOk (p : ParsedUrl) :
    isOkE (_parse_sentinel_parameters p) =
      (isOkE (_parse_hosts p) &&
        (isOkE (_parse_master_and_db p) &&
          isOkE (_parse_socket_timeout (parse_qs p.query)))) := by
  unfold _parse_sentinel_parameters
  cases h1 : _parse_hosts p with
  | error e => simp [isOkE]
  | ok hosts =>
    cases h2 : _parse_master_and_db p with
    | error e => simp [isOkE]
    | ok md =>
      cases h3 : _parse_socket_timeout (parse_qs p.query) with
      | error e => simp [isOkE, h3]
      | ok t => simp [isOkE, h3]

/-- A `host[:port]` token whose port part does not parse as an integer
— the input shape on which `_parse_hosts` raises `ValueError`. -/
def badHostToken (t : List Char) : Bool :=
  match splitCharFirstP (fun c => c == ':') t with
  | some pr => (pyInt (String.mk pr.2)).isNone
  | none => false

/-- A URL whose database-index path segment does not parse as an integer
— the input shape on which `_parse_master_and_db` raises `ValueError`. -/
def badDbField (p : ParsedUrl) : Bool :=
  match splitCharFirstP (fun c => c == '/') (lstripSlashes p) with
  | some pr => (pyInt (String.mk pr.2)).isNone
  | none => false

/-- A URL whose `socket_timeout` query value does not parse as a float
— the input shape on which `_parse_socket_timeout` raises `ValueError`. -/
def badTimeoutField (p : ParsedUrl) : Bool :=
  match qsFirst (parse_qs p.query) "socket_timeout" with
  | some s => (pyFloat s).isNone
  | none => false

/-- A bad host token makes its per-token parse fail. -/
theorem parseHostToken_not_ok {t : List Char} (h : badHostToken t = true) :
    isOkE (parseHostToken t) = false := by
  unfold badHostToken at h
  unfold parseHostToken
  cases hs : splitCharFirstP (fun c => c == ':') t with
  | none => rw [hs] at h; simp at h
  | some pr =>
    rw [hs] at h
    simp at h
    simp [isOkE, h]

/-- A bad database-index segment makes `_parse_master_and_db` fail. -/
theorem master_db_not_ok {p : ParsedUrl} (h : badDbField p = true) :
    isOkE (_parse_master_and_db p) = false := by
  unfold badDbField at h
  unfold _parse_master_and_db
  cases hs : splitCharFirstP (fun c => c == '/') (lstripSlashes p) with
  | none => rw [hs] at h; simp at h
  | some pr =>
    rw [hs] at h
    simp at h
    simp [isOkE, h]

/-- A bad `socket_timeout` value makes `_parse_socket_timeout` fail. -/
theorem timeout_not_ok {p : ParsedUrl} (h : badTimeoutField p = true) :
    isOkE (_parse_socket_timeout (parse_qs p.query)) = false := by
  unfold badTimeoutField at h
  unfold _parse_socket_timeout
  cases hs : qsFirst (parse_qs p.query) "socket_timeout" with
  | none => rw [hs] at h; simp at h
  | some s =>
    rw [hs] at h
    simp at h
    simp [isOkE, h]

/-- Spec-side definition of coordinator-host parsing, written from the
spec's words alone: strip any credentials part up to the first `@` from
the authority, split the remainder on `,`, and for each `host[:port]`
token parse the port as an integer when a `:` is present, otherwise use
the default port 26379, keeping the tokens' order. -/
def specCoordinatorHosts (authority : String) : Except String (List (String × Int)) :=
  let afterCredentials : List Char :=
    match splitCharFirstP (fun c => c == '@') authority.toList with
    | some pr => pr.2
    | none => authority.toList
  mapME
    (fun token =>
      match splitCharFirstP (fun c => c == ':') token with
      | some pr =>
        match pyInt (String.mk pr.2) with
        | some port => Except.ok (String.mk pr.1, port)
        | none => Except.error "invalid literal for int() with base 10"
      | none => Except.ok (String.mk token, 26379))
    (splitChar ',' afterCredentials)

/-- The security parameter set a URL resolves to: the `ssl_params` dict
computed from its query string and its scheme-or-query-derived enabled
flag. -/
def sslParamsOfUrl (url : String) : SslParams :=
  _parse_ssl_params (parse_qs (urlparse url).query)
    (_parse_ssl_enabled (urlparse url).scheme (parse_qs (urlparse url).query))

/-- Core facts about `_parse_auth_params` for arbitrary credential
options: no empty-string value survives, and an empty string behaves
exactly like an absent credential. -/
theorem auth_params_props (u pw : Option String) :
    (_parse_auth_params u pw).username ≠ some "" ∧
    (_parse_auth_params u pw).password ≠ some "" ∧
    (u = some "" → _parse_auth_params u pw = _parse_auth_params none pw) ∧
    (pw = some "" → _parse_auth_params u pw = _parse_auth_params u none) := by
  refine ⟨?_, ?_, ?_, ?_⟩
  · cases u with
    | none => simp [_parse_auth_params, truthyOpt]
    | some s =>
      by_cases hs : s = ""
      · simp [_parse_auth_params, truthyOpt, hs]
      · simp [_parse_auth_params, truthyOpt, hs]
  · cases pw with
    | none => simp [_parse_auth_params, truthyOpt]
    | some s =>
      by_cases hs : s = ""
      · simp [_parse_auth_params, truthyOpt, hs]
      · simp [_parse_auth_params, truthyOpt, hs]
  · intro h
    rw [h]
    simp [_parse_auth_params, truthyOpt]
  · intro h
    rw [h]
    simp [_parse_auth_params, truthyOpt]

/-- C1: resolving "rediss+sentinel://u:p@h1:1,h2/grp/3?socket_timeout=2.5&ssl_cert_reqs=required"
yields the coordinator hosts [("h1",1),("h2",26379)] in order with the
default port 26379 applied to the portless token, master group "grp",
database index 3, socket timeout 2.5, security enabled with certificate
requirement Required, and credentials username "u", password "p". -/
theorem c1_full_example_resolution :
    _parse_sentinel_parameters
      (urlparse "rediss+sentinel://u:p@h1:1,h2/grp/3?socket_timeout=2.5&ssl_cert_reqs=required") =
    Except.ok
      ({ hosts := [("h1", 1), ("h2", 26379)]
         socket_timeout := some { num := 5, den := 2 }
         ssl_params := { ssl := some true, ssl_cert_reqs := some CertReqs.cert_required }
         auth_params := { username := some "u", password := some "p" }
         master_name := "grp" },
       { db := 3
         socket_timeout := some { num := 5, den := 2 }
         ssl_params := { ssl := some true, ssl_cert_reqs := some CertReqs.cert_required }
         auth_params := { username := some "u", password := some "p" } }) := by
  decide

/-- C2: for every parsed URL, `_parse_hosts` computes exactly the spec's
coordinator-host parse of the authority (credentials stripped up to the
first `@`, remainder split on `,`, port parsed when `:` is present and
defaulted to 26379 otherwise), and every successful result corresponds
to the comma-separated tokens elementwise, preserving their input
order. -/
theorem c2_hosts_refine_spec (p : ParsedUrl) :
    _parse_hosts p = specCoordinatorHosts p.netloc ∧
    ∀ hs, _parse_hosts p = Except.ok hs →
      List.Forall₂ (fun t hp => parseHostToken t = Except.ok hp) (hostTokens p.netloc) hs := by
  constructor
  · rfl
  · intro hs h
    exact mapME_ok_forall2 parseHostToken (hostTokens p.netloc) hs h

theorem c2_hosts_refine_spec_witness :
    _parse_hosts (urlparse "redis+sentinel://a:1,b/g") =
      specCoordinatorHosts (urlparse "redis+sentinel://a:1,b/g").netloc ∧
    List.Forall₂ (fun t hp => parseHostToken t = Except.ok hp)
      (hostTokens (urlparse "redis+sentinel://a:1,b/g").netloc) [("a", 1), ("b", 26379)] :=
  ⟨(c2_hosts_refine_spec (urlparse "redis+sentinel://a:1,b/g")).1,
   (c2_hosts_refine_spec (urlparse "redis+sentinel://a:1,b/g")).2
     [("a", 1), ("b", 26379)] (by decide)⟩

/-- C3: every URL whose scheme is not one of the two discovery schemes
resolves to the direct construction path, invoked with the endpoint URL
exactly equal to the input string, and initialization succeeds without
error. -/
theorem c3_direct_url_unchanged (avail : Bool) (pfx : String) (dec : Bool)
    (url : String) (st : AppState)
    (h1 : (urlparse url).scheme ≠ "redis+sentinel")
    (h2 : (urlparse url).scheme ≠ "rediss+sentinel") :
    (init_app avail pfx dec url st).1 = none ∧
    (init_app avail pfx dec url st).2.redis_client =
      some (RedisClient.standard url dec) := by
  simp only [init_app]
  rw [if_neg (fun hor => hor.elim h1 h2)]
  simp [registerClient]

theorem c3_direct_url_unchanged_witness :
    (init_app true "REDIS" true "redis://localhost:6379/0"
        { redis_client := none, extensions := none }).1 = none ∧
    (init_app true "REDIS" true "redis://localhost:6379/0"
        { redis_client := none, extensions := none }).2.redis_client =
      some (RedisClient.standard "redis://localhost:6379/0" true) :=
  c3_direct_url_unchanged true "REDIS" true "redis://localhost:6379/0"
    { redis_client := none, extensions := none } (by decide) (by decide)

/-- C4, counterexample: the claim fails as stated.  The URL
"redis+sentinel://h/g?ssl=true&ssl_cert_reqs=required" carries
`ssl=true`, yet its resolved security parameters differ from those of
the same URL under the `rediss+sentinel` scheme with no query
parameters, because other `ssl_*` query fields survive alongside the
enabling flag. -/
theorem c4_ssl_query_counterexample :
    lowerStr ((qsFirst
        (parse_qs (urlparse "redis+sentinel://h/g?ssl=true&ssl_cert_reqs=required").query)
        "ssl").getD "False") = "true" ∧
    sslParamsOfUrl "redis+sentinel://h/g?ssl=true&ssl_cert_reqs=required" ≠
      sslParamsOfUrl "rediss+sentinel://h/g" := by
  decide

/-- C4, amended: for every URL with scheme `redis+sentinel`, an `ssl`
query parameter whose value compares case-insensitively equal to
"true", and no other `ssl_*` query parameters, the resolved security
parameters are identical to those of a `rediss+sentinel` URL with no
query parameters: in both cases security is enabled with no additional
certificate fields populated. -/
theorem c4_ssl_query_equiv_amended (p : ParsedUrl)
    (hscheme : p.scheme = "redis+sentinel")
    (hssl : lowerStr ((qsFirst (parse_qs p.query) "ssl").getD "False") = "true")
    (hcr : qsFirst (parse_qs p.query) "ssl_cert_reqs" = none)
    (hkf : qsFirst (parse_qs p.query) "ssl_keyfile" = none)
    (hcf : qsFirst (parse_qs p.query) "ssl_certfile" = none)
    (hca : qsFirst (parse_qs p.query) "ssl_ca_certs" = none) :
    _parse_ssl_params (parse_qs p.query) (_parse_ssl_enabled p.scheme (parse_qs p.query)) =
      _parse_ssl_params (parse_qs "") (_parse_ssl_enabled "rediss+sentinel" (parse_qs "")) ∧
    _parse_ssl_params (parse_qs p.query) (_parse_ssl_enabled p.scheme (parse_qs p.query)) =
      { ssl := some true } := by
  have he : _parse_ssl_enabled p.scheme (parse_qs p.query) = true := by
    unfold _parse_ssl_enabled
    rw [hscheme, hssl]
    decide
  have hp2 : _parse_ssl_params (parse_qs p.query) true = { ssl := some true } := by
    unfold _parse_ssl_params
    simp [_parse_ssl_cert_reqs, hcr, hkf, hcf, hca, truthyOpt]
  refine ⟨?_, ?_⟩
  · rw [he, hp2]
    decide
  · rw [he, hp2]

theorem c4_ssl_query_equiv_amended_witness :
    _parse_ssl_params (parse_qs (urlparse "redis+sentinel://h/g?ssl=TRUE").query)
        (_parse_ssl_enabled (urlparse "redis+sentinel://h/g?ssl=TRUE").scheme
          (parse_qs (urlparse "redis+sentinel://h/g?ssl=TRUE").query)) =
      _parse_ssl_params (parse_qs "") (_parse_ssl_enabled "rediss+sentinel" (parse_qs "")) ∧
    _parse_ssl_params (parse_qs (urlparse "redis+sentinel://h/g?ssl=TRUE").query)
        (_parse_ssl_enabled (urlparse "redis+sentinel://h/g?ssl=TRUE").scheme
          (parse_qs (urlparse "redis+sentinel://h/g?ssl=TRUE").query)) =
      { ssl := some true } :=
  c4_ssl_query_equiv_amended (urlparse "redis+sentinel://h/g?ssl=TRUE")
    (by decide) (by decide) (by decide) (by decide) (by decide) (by decide)

/-- C5, counterexample: the claim fails as stated.  For
"redis+sentinel://h1/grp", the path stripped of leading slashes is
"grp", which contains no `/` separator, yet the resolved group name is
"grp", not the empty string (the database index does default to 0). -/
theorem c5_one_segment_counterexample :
    ('/' ∉ lstripSlashes (urlparse "redis+sentinel://h1/grp")) ∧
    _parse_master_and_db (urlparse "redis+sentinel://h1/grp") = Except.ok ("grp", 0) ∧
    ("grp" : String) ≠ "" := by
  decide

/-- C5, amended: for every URL whose path, after stripping leading `/`
characters, contains no `/` separator, resolution yields that stripped
path as the group name — empty exactly when the stripped path is empty
— and database index 0. -/
theorem c5_one_segment_amended (p : ParsedUrl) (h : '/' ∉ lstripSlashes p) :
    _parse_master_and_db p = Except.ok (String.mk (lstripSlashes p), 0) := by
  unfold _parse_master_and_db
  have hs : splitCharFirstP (fun c => c == '/') (lstripSlashes p) = none := by
    rw [splitCharFirstP_eq_none_iff]
    intro c hc
    cases hcc : c == '/' with
    | false => rfl
    | true => exact absurd (eq_of_beq hcc ▸ hc) h
  rw [hs]

theorem c5_one_segment_amended_witness :
    _parse_master_and_db (urlparse "redis+sentinel://h/mymaster") =
      Except.ok (String.mk (lstripSlashes (urlparse "redis+sentinel://h/mymaster")), 0) :=
  c5_one_segment_amended (urlparse "redis+sentinel://h/mymaster") (by decide)

/-- C6, counterexample: the claim fails as stated.  The string
"redis+sentinel://h/grp/x" is a syntactically valid URL (standard URL
parsing accepts every string), yet resolving it raises a ValueError
because the database-index segment "x" is not an integer; the error
propagates out of initialization. -/
theorem c6_total_counterexample :
    isOkE (_parse_sentinel_parameters (urlparse "redis+sentinel://h/grp/x")) = false ∧
    init_app true "REDIS" true "redis+sentinel://h/grp/x"
        { redis_client := none, extensions := none } =
      (some (InitError.valueError "invalid literal for int() with base 10"),
       { redis_client := none, extensions := none }) := by
  decide

/-- C6, amended: resolution is a pure function of the URL (the embedding
performs no I/O) and total except for ValueError parse errors on
malformed numeric fields: it succeeds exactly when the host ports, the
database-index segment and the socket_timeout query value all parse. -/
theorem c6_total_amended (p : ParsedUrl) :
    isOkE (_parse_sentinel_parameters p) =
      (isOkE (_parse_hosts p) &&
        (isOkE (_parse_master_and_db p) &&
          isOkE (_parse_socket_timeout (parse_qs p.query)))) :=
  sentinel_params_isOk p

/-- C7: for every URL, the resolved security parameter set has its
fields other than the enabled flag populated only when security is
enabled, and when security is disabled the set is the empty dict. -/
theorem c7_ssl_params_invariant (p : ParsedUrl) :
    (_parse_ssl_enabled p.scheme (parse_qs p.query) = false →
      _parse_ssl_params (parse_qs p.query)
        (_parse_ssl_enabled p.scheme (parse_qs p.query)) = {}) ∧
    (∀ e : Bool,
      ((_parse_ssl_params (parse_qs p.query) e).ssl_cert_reqs ≠ none ∨
       (_parse_ssl_params (parse_qs p.query) e).ssl_keyfile ≠ none ∨
       (_parse_ssl_params (parse_qs p.query) e).ssl_certfile ≠ none ∨
       (_parse_ssl_params (parse_qs p.query) e).ssl_ca_certs ≠ none) →
      e = true ∧ (_parse_ssl_params (parse_qs p.query) e).ssl = some true) := by
  constructor
  · intro h
    rw [h]
    rfl
  · intro e he
    cases e with
    | false =>
      exfalso
      rcases he with h | h | h | h <;> exact h rfl
    | true => exact ⟨rfl, rfl⟩

theorem c7_ssl_params_invariant_witness :
    _parse_ssl_params (parse_qs (urlparse "redis+sentinel://h/g?ssl_cert_reqs=required").query)
      (_parse_ssl_enabled (urlparse "redis+sentinel://h/g?ssl_cert_reqs=required").scheme
        (parse_qs (urlparse "redis+sentinel://h/g?ssl_cert_reqs=required").query)) = {} :=
  (c7_ssl_params_invariant (urlparse "redis+sentinel://h/g?ssl_cert_reqs=required")).1
    (by decide)

/-- C8: for every URL with a discovery scheme that contains a malformed
integer field — a host token with a non-integer port, a non-integer
database-index segment, or a non-float socket_timeout query value —
initialization fails with the ValueError parse error propagating
uncaught to the caller, and the state (client handle and extension
registry) is left unchanged, so no client is constructed from the
partial configuration. -/
theorem c8_malformed_fields_error (url pfx : String) (dec : Bool) (st : AppState)
    (hscheme : (urlparse url).scheme = "redis+sentinel" ∨
               (urlparse url).scheme = "rediss+sentinel")
    (hbad : (hostTokens (urlparse url).netloc).any badHostToken = true ∨
            badDbField (urlparse url) = true ∨
            badTimeoutField (urlparse url) = true) :
    ∃ m, init_app true pfx dec url st = (some (InitError.valueError m), st) := by
  have hnotok : isOkE (_parse_sentinel_parameters (urlparse url)) = false := by
    rw [sentinel_params_isOk]
    rcases hbad with h | h | h
    · have hh : isOkE (_parse_hosts (urlparse url)) = false := by
        unfold _parse_hosts
        rcases List.any_eq_true.mp h with ⟨t, ht, hbt⟩
        exact mapME_not_ok_of_mem parseHostToken ht (parseHostToken_not_ok hbt)
      rw [hh]
      rfl
    · rw [master_db_not_ok h]
      simp
    · rw [timeout_not_ok h]
      simp
  obtain ⟨m, hm⟩ := exists_error_of_not_ok hnotok
  refine ⟨m, ?_⟩
  simp only [init_app]
  rw [if_pos hscheme]
  simp [hm]

theorem c8_malformed_fields_error_witness :
    ∃ m, init_app true "REDIS" true "redis+sentinel://h:x/g"
        { redis_client := none, extensions := none } =
      (some (InitError.valueError m), { redis_client := none, extensions := none }) :=
  c8_malformed_fields_error "redis+sentinel://h:x/g" "REDIS" true
    { redis_client := none, extensions := none } (by decide) (by decide)

/-- C9: for every initialization call with a discovery-scheme URL while
Sentinel support is unavailable, `init_app` raises the distinct
ImportError before any construction attempt, and the stored client
handle and the extension registry are both left unchanged. -/
theorem c9_sentinel_unavailable_import_error (pfx : String) (dec : Bool)
    (url : String) (st : AppState)
    (hscheme : (urlparse url).scheme = "redis+sentinel" ∨
               (urlparse url).scheme = "rediss+sentinel") :
    init_app false pfx dec url st =
      (some (InitError.importError "redis-py must be installed to use Redis Sentinel."),
       st) := by
  simp only [init_app]
  rw [if_pos hscheme]
  rfl

theorem c9_sentinel_unavailable_import_error_witness :
    init_app false "REDIS" true "redis+sentinel://localhost:26379/mymaster/0"
        { redis_client := some (RedisClient.standard "redis://old" true),
          extensions := some [("redis", RedisClient.standard "redis://old" true)] } =
      (some (InitError.importError "redis-py must be installed to use Redis Sentinel."),
       { redis_client := some (RedisClient.standard "redis://old" true),
         extensions := some [("redis", RedisClient.standard "redis://old" true)] }) :=
  c9_sentinel_unavailable_import_error "REDIS" true
    "redis+sentinel://localhost:26379/mymaster/0"
    { redis_client := some (RedisClient.standard "redis://old" true),
      extensions := some [("redis", RedisClient.standard "redis://old" true)] }
    (by decide)

/-- C10: for every URL, the resolved credentials mapping never contains
an empty-string value, and a username or password that is present but
empty is omitted exactly as if it were absent. -/
theorem c10_auth_params_no_empty (p : ParsedUrl) :
    (_parse_auth_params (_extract_credentials p).1 (_extract_credentials p).2).username ≠
      some "" ∧
    (_parse_auth_params (_extract_credentials p).1 (_extract_credentials p).2).password ≠
      some "" ∧
    ((_extract_credentials p).1 = some "" →
      _parse_auth_params (_extract_credentials p).1 (_extract_credentials p).2 =
        _parse_auth_params none (_extract_credentials p).2) ∧
    ((_extract_credentials p).2 = some "" →
      _parse_auth_params (_extract_credentials p).1 (_extract_credentials p).2 =
        _parse_auth_params (_extract_credentials p).1 none) :=
  auth_params_props (_extract_credentials p).1 (_extract_credentials p).2

theorem c10_auth_params_no_empty_witness :
    _parse_auth_params (_extract_credentials (urlparse "redis+sentinel://u:@h/g")).1
        (_extract_credentials (urlparse "redis+sentinel://u:@h/g")).2 =
      _parse_auth_params (_extract_credentials (urlparse "redis+sentinel://u:@h/g")).1
        none :=
  (c10_auth_params_no_empty (urlparse "redis+sentinel://u:@h/g")).2.2.2 (by decide)
